import Mathlib

/-!
Verification of the data-management layer of the economic-dashboard repository
(`data_manager.py`), as a shallow embedding in Lean 4.

Modelling conventions:
* A pandas `DataFrame` is an ordered list of column names plus an ordered list
  of rows; a cell is `Option String` (`none` models `NaN`/null; values are kept
  at their CSV text representation, which is all the reconciliation and
  persistence logic ever inspects).
* The data directory is a map from filename to an optional pair of
  (modification-time string, CSV contents), the CSV contents being the list of
  lines, each line the list of its fields.
* `dict(zip(keys, vals))` followed by `Series.map` is modelled by `seriesMap`:
  last occurrence of a key wins (Python dict insertion overwrites), and a key
  absent from the mapping yields null (`Series.map` produces `NaN`).
* Python exceptions inside a refresh are modelled with `Except String`;
  a missing column access `df['c']` raises `KeyError('c')`, modelled by
  `getColE` returning `.error`. A parse failure of a file that exists
  (`pd.read_csv` raising, e.g. `EmptyDataError`) propagates out of `load_csv`,
  the plain loads and `get_data_status`, modelled by those returning `.error`.
* Network fetches (`fred.get_series` + normalization) are inputs to the refresh
  functions: a refresh receives the fetch's result (`Except String DataFrame`)
  and the prior persisted file, mirroring that the fetch is an external call.
-/

/-- A cell of a tabular dataset: `none` models a missing value (NaN). -/
abbrev Cell := Option String

/-- A pandas-style dataframe: ordered column names and ordered rows of cells. -/
structure DataFrame where
  columns : List String
  rows : List (List Cell)
deriving DecidableEq, Repr

/-- Well-formedness: every row has exactly one cell per column. -/
def DataFrame.WF (df : DataFrame) : Prop :=
  ∀ r ∈ df.rows, r.length = df.columns.length

instance (df : DataFrame) : Decidable df.WF := by
  unfold DataFrame.WF; infer_instance

/-- Position of a column, `columns.length` if absent (mirrors pandas column lookup). -/
def colIdx (df : DataFrame) (name : String) : Nat :=
  df.columns.indexOf name

/-- The values of one column, row by row (a pandas `Series`). -/
def colVals (df : DataFrame) (name : String) : List Cell :=
  df.rows.map (fun r => r.getD (colIdx df name) none)

/-- `df[name]` as in Python: raises `KeyError(name)` when the column is absent. -/
def getColE (df : DataFrame) (name : String) : Except String (List Cell) :=
  if name ∈ df.columns then .ok (colVals df name) else .error ("'" ++ name ++ "'")

/-- `df[name] = vals`: replace the column in place when present, append it otherwise
(pandas column assignment). -/
def setCol (df : DataFrame) (name : String) (vals : List Cell) : DataFrame :=
  if name ∈ df.columns then
    ⟨df.columns, List.zipWith (fun r v => r.set (colIdx df name) v) df.rows vals⟩
  else
    ⟨df.columns ++ [name], List.zipWith (fun r v => r ++ [v]) df.rows vals⟩

/-- `series.map(dict(zip(keys, vals)))` at one key: last binding of the key wins
(dict construction), absent keys give null (`Series.map`). -/
def seriesMap (m : List (Cell × Cell)) (k : Cell) : Cell :=
  (m.reverse.lookup k).getD none

/-! ## CSV persistence (`load_csv` / `save_csv` / `get_last_updated`) -/

/-- How `to_csv` renders a cell: null becomes the empty field. -/
def writeCell : Cell → String
  | none => ""
  | some s => s

/-- How `read_csv` interprets a field: the empty field is null. -/
def readCell (s : String) : Cell :=
  if s = "" then none else some s

/-- `df.to_csv(index=False)`: header line then one line per row. A line is kept
as its list of fields. -/
def toCSV (df : DataFrame) : List (List String) :=
  df.columns :: df.rows.map (fun r => r.map writeCell)

/-- `pd.read_csv`: first line is the header, the rest are data rows.
An empty file is a parse failure. -/
def readCSV (lines : List (List String)) : Option DataFrame :=
  match lines with
  | [] => none
  | header :: body => some ⟨header, body.map (fun r => r.map readCell)⟩

/-- The data directory: filename to (modification time, CSV file contents). -/
def FS := String → Option (String × List (List String))

/-- `load_csv`: `.ok none` (Python `None`) when the file does not exist, the
parsed file otherwise. A file that exists but fails to parse (`pd.read_csv`
raising, e.g. `EmptyDataError` on an empty file) propagates the exception,
modelled as `.error`. -/
def load_csv (fs : FS) (filename : String) : Except String (Option DataFrame) :=
  match fs filename with
  | some p =>
    match readCSV p.2 with
    | some df => .ok (some df)
    | none => .error "EmptyDataError"
  | none => .ok none

/-- `save_csv`: overwrite the file wholesale with the rendered dataframe and
stamp the new modification time. -/
def save_csv (fs : FS) (filename : String) (df : DataFrame) (mtime : String) : FS :=
  fun n => if n = filename then some (mtime, toCSV df) else fs n

/-- `get_last_updated`: the file's modification time, or "Never". -/
def get_last_updated (fs : FS) (filename : String) : String :=
  match fs filename with
  | some p => p.1
  | none => "Never"

/-- Null-normalization of a cell: an empty-text cell reads back as null.
This is the "encoding of missing cells as nulls" in the round-trip law. -/
def normCell (c : Cell) : Cell :=
  match c with
  | none => none
  | some s => if s = "" then none else some s

lemma readCell_writeCell (c : Cell) : readCell (writeCell c) = normCell c := by
  cases c with
  | none => rfl
  | some s => simp [readCell, writeCell, normCell]

/-- C2: For every dataset of every kind, saving it with save_csv and then loading
it with load_csv returns a dataset with identical rows, identical column order,
and identical values, up to the encoding of missing cells as nulls. -/
theorem save_load_roundtrip (fs : FS) (filename mtime : String) (df : DataFrame) :
    load_csv (save_csv fs filename df mtime) filename =
      .ok (some ⟨df.columns, df.rows.map (fun r => r.map normCell)⟩) := by
  have hrows : (df.rows.map (fun r => r.map writeCell)).map (fun r => r.map readCell)
      = df.rows.map (fun r => r.map normCell) := by
    rw [List.map_map]
    apply List.map_congr_left
    intro r _
    simp [Function.comp, readCell_writeCell]
  simp only [load_csv, save_csv, if_pos rfl, if_true, toCSV, readCSV, hrows]

/-! ## Lemmas about the key-to-value mapping (`dict(zip(..))` + `Series.map`) -/

lemma lookup_eq_none_of_not_mem (m : List (Cell × Cell)) (k : Cell)
    (h : k ∉ m.map Prod.fst) : m.lookup k = none := by
  induction m with
  | nil => rfl
  | cons p rest ih =>
    obtain ⟨k', v⟩ := p
    rw [List.lookup_cons]
    have hk : k ≠ k' := by
      intro hkk
      exact h (by simp [hkk])
    rw [beq_eq_false_iff_ne.mpr hk]
    exact ih (fun hm => h (by simp at hm ⊢; exact Or.inr hm))

lemma lookup_of_mem_nodup (m : List (Cell × Cell)) (k v : Cell)
    (hnd : (m.map Prod.fst).Nodup) (hmem : (k, v) ∈ m) : m.lookup k = some v := by
  induction m with
  | nil => simp at hmem
  | cons p rest ih =>
    obtain ⟨k', v'⟩ := p
    rw [List.lookup_cons]
    simp only [List.map_cons, List.nodup_cons] at hnd
    rcases List.mem_cons.mp hmem with heq | htail
    · obtain ⟨rfl, rfl⟩ := Prod.mk.injEq .. ▸ heq
      simp
    · have hk : k ≠ k' := by
        rintro rfl
        exact hnd.1 (List.mem_map.mpr ⟨(k, v), htail, rfl⟩)
      rw [beq_eq_false_iff_ne.mpr hk]
      exact ih hnd.2 htail

lemma seriesMap_of_not_mem (m : List (Cell × Cell)) (k : Cell)
    (h : k ∉ m.map Prod.fst) : seriesMap m k = none := by
  unfold seriesMap
  rw [lookup_eq_none_of_not_mem]
  · rfl
  · rw [List.map_reverse, List.mem_reverse]
    exact h

lemma seriesMap_of_mem (m : List (Cell × Cell)) (k v : Cell)
    (hnd : (m.map Prod.fst).Nodup) (hmem : (k, v) ∈ m) : seriesMap m k = v := by
  unfold seriesMap
  rw [lookup_of_mem_nodup m.reverse k v
    (by rw [List.map_reverse]; exact List.nodup_reverse.mpr hnd)
    (List.mem_reverse.mpr hmem)]
  rfl

/-! ## Lemmas about column access and column assignment -/

lemma getD_set_self (r : List Cell) (i : Nat) (v : Cell) (h : i < r.length) :
    (r.set i v).getD i none = v := by
  rw [List.getD_eq_getElem _ _ (by simpa using h)]
  exact List.getElem_set_self _

lemma getD_set_ne (r : List Cell) (i j : Nat) (v : Cell) (h : i ≠ j) :
    (r.set i v).getD j none = r.getD j none := by
  by_cases hj : j < r.length
  · rw [List.getD_eq_getElem _ _ (by simpa using hj), List.getD_eq_getElem _ _ hj]
    exact List.getElem_set_ne h _
  · rw [List.getD_eq_default _ _ (by simpa using Nat.le_of_not_lt hj),
        List.getD_eq_default _ _ (Nat.le_of_not_lt hj)]

lemma set_getD_self_eq (r : List Cell) (i : Nat) (h : i < r.length) :
    r.set i (r.getD i none) = r := by
  induction r generalizing i with
  | nil => simp at h
  | cons a as ih =>
    cases i with
    | zero => rfl
    | succ n =>
      simp only [List.getD_cons_succ, List.set_cons_succ]
      rw [ih n (by simpa using h)]

lemma zipWith_set_getD (idx : Nat) (rows : List (List Cell)) (vals : List Cell)
    (h : ∀ r ∈ rows, idx < r.length) (hlen : vals.length = rows.length) :
    List.map (fun r => r.getD idx none)
      (List.zipWith (fun r v => r.set idx v) rows vals) = vals := by
  induction rows generalizing vals with
  | nil => cases vals with
    | nil => rfl
    | cons _ _ => simp at hlen
  | cons r rs ih =>
    cases vals with
    | nil => simp at hlen
    | cons v vs =>
      simp only [List.zipWith_cons_cons, List.map_cons]
      rw [getD_set_self _ _ _ (h r (List.mem_cons_self _ _)),
          ih vs (fun a ha => h a (List.mem_cons_of_mem _ ha)) (by simpa using hlen)]

lemma map_getD_zipWith_set_ne (idx jdx : Nat) (hne : idx ≠ jdx)
    (rows : List (List Cell)) (vals : List Cell) :
    List.map (fun r => r.getD jdx none)
      (List.zipWith (fun r v => r.set idx v) rows vals)
      = List.map (fun r => r.getD jdx none) (rows.take vals.length) := by
  induction rows generalizing vals with
  | nil => simp
  | cons r rs ih =>
    cases vals with
    | nil => simp
    | cons v vs =>
      simp only [List.zipWith_cons_cons, List.map_cons, List.length_cons, List.take_succ_cons]
      rw [getD_set_ne _ _ _ _ hne, ih]

lemma zipWith_set_self (idx : Nat) (rows : List (List Cell))
    (h : ∀ r ∈ rows, idx < r.length) :
    List.zipWith (fun r v => r.set idx v) rows
      (rows.map (fun r => r.getD idx none)) = rows := by
  induction rows with
  | nil => rfl
  | cons r rs ih =>
    simp only [List.map_cons, List.zipWith_cons_cons]
    rw [set_getD_self_eq _ _ (h r (List.mem_cons_self _ _)),
        ih (fun a ha => h a (List.mem_cons_of_mem _ ha))]

lemma zipWith_set_wf (idx : Nat) (n : Nat) (rows : List (List Cell)) (vals : List Cell)
    (h : ∀ r ∈ rows, r.length = n) :
    ∀ r' ∈ List.zipWith (fun r v => r.set idx v) rows vals, r'.length = n := by
  induction rows generalizing vals with
  | nil => simp
  | cons r rs ih =>
    cases vals with
    | nil => simp
    | cons v vs =>
      intro r' hr'
      rcases List.mem_cons.mp hr' with rfl | h'
      · simpa using h r (List.mem_cons_self _ _)
      · exact ih vs (fun a ha => h a (List.mem_cons_of_mem _ ha)) r' h'

lemma colVals_length (df : DataFrame) (c : String) :
    (colVals df c).length = df.rows.length := by
  simp [colVals]

lemma colIdx_lt_of_mem {df : DataFrame} {c : String} (h : c ∈ df.columns) :
    colIdx df c < df.columns.length :=
  List.indexOf_lt_length.mpr h

lemma rowlen_of_wf {df : DataFrame} (hwf : df.WF) {c : String} (hc : c ∈ df.columns) :
    ∀ r ∈ df.rows, colIdx df c < r.length := by
  intro r hr
  rw [hwf r hr]
  exact colIdx_lt_of_mem hc

lemma colIdx_ne (df : DataFrame) {c c' : String} (hc : c ∈ df.columns) (hne : c' ≠ c) :
    colIdx df c ≠ colIdx df c' := by
  by_cases h' : c' ∈ df.columns
  · intro heq
    apply hne
    have h1 := List.indexOf_get (List.indexOf_lt_length.mpr hc)
    have h2 := List.indexOf_get (List.indexOf_lt_length.mpr h')
    have hfin : (⟨List.indexOf c' df.columns, List.indexOf_lt_length.mpr h'⟩ :
        Fin df.columns.length)
        = ⟨List.indexOf c df.columns, List.indexOf_lt_length.mpr hc⟩ :=
      Fin.ext heq.symm
    rw [← h2, ← h1, hfin]
  · simp only [colIdx]
    rw [List.indexOf_eq_length.mpr h']
    exact Nat.ne_of_lt (colIdx_lt_of_mem hc)

lemma setCol_columns_of_mem (df : DataFrame) (c : String) (vals : List Cell)
    (h : c ∈ df.columns) : (setCol df c vals).columns = df.columns := by
  simp [setCol, h]

lemma colIdx_setCol_of_mem (df : DataFrame) (c c' : String) (vals : List Cell)
    (h : c ∈ df.columns) : colIdx (setCol df c vals) c' = colIdx df c' := by
  simp [colIdx, setCol, h]

lemma WF_setCol (df : DataFrame) (c : String) (vals : List Cell)
    (hc : c ∈ df.columns) (hwf : df.WF) : (setCol df c vals).WF := by
  intro r hr
  rw [setCol_columns_of_mem _ _ _ hc]
  simp only [setCol, if_pos hc] at hr
  exact zipWith_set_wf _ _ _ _ hwf r hr

lemma colVals_setCol_self (df : DataFrame) (c : String) (vals : List Cell)
    (hc : c ∈ df.columns) (hwf : df.WF) (hlen : vals.length = df.rows.length) :
    colVals (setCol df c vals) c = vals := by
  unfold colVals
  rw [colIdx_setCol_of_mem _ _ _ _ hc]
  simp only [setCol, if_pos hc]
  exact zipWith_set_getD _ _ _ (rowlen_of_wf hwf hc) hlen

lemma colVals_setCol_other (df : DataFrame) (c c' : String) (vals : List Cell)
    (hc : c ∈ df.columns) (hne : c' ≠ c) (hlen : vals.length = df.rows.length) :
    colVals (setCol df c vals) c' = colVals df c' := by
  unfold colVals
  rw [colIdx_setCol_of_mem _ _ _ _ hc]
  simp only [setCol, if_pos hc]
  rw [map_getD_zipWith_set_ne _ _ (colIdx_ne df hc hne) _ _, hlen, List.take_length]

/-! ## The override-merge specification -/

/-- The reconciliation contract between a prior column (keys `exK`, override
values `exV`) and a reconciled result (keys `resK`, override values `resV`):
a result row whose key is new carries null, and a result row whose key occurred
in the prior dataset carries the prior value for that key. -/
def mergeSpec (exK exV resK resV : List Cell) : Prop :=
  ∀ i : Fin resK.length,
    (resK.get i ∉ exK → resV.getD i none = none) ∧
    (∀ j : Fin exK.length, exK.get j = resK.get i → resV.getD i none = exV.getD j none)

lemma mergeSpec_map (exK exV fk : List Cell) (hnd : exK.Nodup)
    (hlen : exK.length = exV.length) :
    mergeSpec exK exV fk (fk.map (seriesMap (exK.zip exV))) := by
  intro i
  have hkeys : (exK.zip exV).map Prod.fst = exK := List.map_fst_zip _ _ (le_of_eq hlen)
  have hres : (fk.map (seriesMap (exK.zip exV))).getD i.1 none
      = seriesMap (exK.zip exV) (fk.get i) := by
    rw [List.getD_eq_getElem _ _ (by simp [i.2]), List.getElem_map,
        List.get_eq_getElem]
  constructor
  · intro hnot
    rw [hres]
    exact seriesMap_of_not_mem _ _ (by rw [hkeys]; exact hnot)
  · intro j hj
    have hjv : j.1 < exV.length := hlen ▸ j.2
    have hjz : j.1 < (exK.zip exV).length := by
      rw [List.length_zip]
      exact lt_min j.2 hjv
    have hmem : (exK[j.1], exV[j.1]) ∈ exK.zip exV := by
      have := List.getElem_mem hjz
      rwa [List.getElem_zip] at this
    rw [hres, ← hj, List.getD_eq_getElem _ _ hjv, List.get_eq_getElem]
    exact seriesMap_of_mem _ _ _ (by rw [hkeys]; exact hnd) hmem

lemma map_seriesMap_self (ks vs : List Cell) (hnd : ks.Nodup)
    (hlen : ks.length = vs.length) :
    ks.map (seriesMap (ks.zip vs)) = vs := by
  apply List.ext_getElem (by simpa using hlen)
  intro i h1 h2
  rw [List.getElem_map]
  have hjz : i < (ks.zip vs).length := by
    rw [List.length_zip]
    exact lt_min (by simpa using h1) h2
  have hmem : (ks[i], vs[i]) ∈ ks.zip vs := by
    have := List.getElem_mem hjz
    rwa [List.getElem_zip] at this
  exact seriesMap_of_mem _ _ _
    (by rw [List.map_fst_zip _ _ (le_of_eq hlen)]; exact hnd) hmem

lemma setCol_self (df : DataFrame) (c : String) (hc : c ∈ df.columns) (hwf : df.WF) :
    setCol df c (colVals df c) = df := by
  have hrows : List.zipWith (fun r v => r.set (colIdx df c) v) df.rows
      (df.rows.map (fun r => r.getD (colIdx df c) none)) = df.rows :=
    zipWith_set_self _ _ (rowlen_of_wf hwf hc)
  simp only [setCol, if_pos hc, colVals, hrows]

/-! ## Refresh functions (`refresh_gdp_data`, `refresh_unemployment_data`,
`refresh_sentiment_data`, `refresh_all_api_data`) -/

/-- A refresh outcome `(success, message, data | None)`. -/
structure Outcome where
  success : Bool
  message : String
  data : Option DataFrame
deriving DecidableEq, Repr

/-- Truthiness of `fred_api_key` in `if fred_api_key and FRED_AVAILABLE:`:
`None` and the empty string are falsy. -/
def truthy : Option String → Bool
  | none => false
  | some s => s != ""

/-- The guard under which a refresh function reaches its fetch call
(line `if fred_api_key and FRED_AVAILABLE:`): the network is contacted
exactly when this holds. -/
def fetch_attempted (fred_api_key : Option String) (fredAvailable : Bool) : Bool :=
  truthy fred_api_key && fredAvailable

/-- The merge step of `refresh_gdp_data` (lines 308-312): preserve disputed
values from the existing file, only when it exists and has a `Disputed` column. -/
def refreshGdpCore (df : DataFrame) (existing : Option DataFrame) :
    Except String DataFrame :=
  match existing with
  | none => .ok df
  | some ex =>
    if "Disputed" ∈ ex.columns then
      match getColE ex "Quarter" with
      | .error e => .error e
      | .ok exQ =>
        match getColE ex "Disputed" with
        | .error e => .error e
        | .ok exD =>
          match getColE df "Quarter" with
          | .error e => .error e
          | .ok fq =>
            .ok (setCol df "Disputed" (fq.map (seriesMap (exQ.zip exD))))
    else .ok df

/-- The merge step of `refresh_unemployment_data` (lines 331-337): both maps are
built from the existing file, then the two override columns are assigned. -/
def refreshUnempCore (df : DataFrame) (existing : Option DataFrame) :
    Except String DataFrame :=
  match existing with
  | none => .ok df
  | some ex =>
    match getColE ex "Year" with
    | .error e => .error e
    | .ok exY =>
      match getColE ex "Young Grads (22-27)" with
      | .error e => .error e
      | .ok exG =>
        match getColE ex "Recent Grads" with
        | .error e => .error e
        | .ok exR =>
          match getColE df "Year" with
          | .error e => .error e
          | .ok fy =>
            let df1 := setCol df "Young Grads (22-27)" (fy.map (seriesMap (exY.zip exG)))
            match getColE df1 "Year" with
            | .error e => .error e
            | .ok fy1 =>
              .ok (setCol df1 "Recent Grads" (fy1.map (seriesMap (exY.zip exR))))

/-- The merge step of `refresh_sentiment_data` (lines 356-360): preserve the
Conference Board column from the existing file. -/
def refreshSentCore (df : DataFrame) (existing : Option DataFrame) :
    Except String DataFrame :=
  match existing with
  | none => .ok df
  | some ex =>
    match getColE ex "Period" with
    | .error e => .error e
    | .ok exP =>
      match getColE ex "Conference Board" with
      | .error e => .error e
      | .ok exC =>
        match getColE df "Period" with
        | .error e => .error e
        | .ok fp =>
          .ok (setCol df "Conference Board" (fp.map (seriesMap (exP.zip exC))))

/-- `refresh_gdp_data`: guard on credential and capability, fetch, merge,
persist, with every exception converted to a failure outcome at this boundary.
`fetched` is the result of `fetch_gdp_from_fred` (an exception or a dataframe)
and `existing` the parsed prior `gdp_data.csv`. -/
def refresh_gdp_data (fred_api_key : Option String) (fredAvailable : Bool)
    (_bea_api_key : Option String) (fetched : Except String DataFrame)
    (existing : Option DataFrame) : Outcome :=
  if truthy fred_api_key && fredAvailable then
    match (match fetched with
           | .error e => .error e
           | .ok df => refreshGdpCore df existing : Except String DataFrame) with
    | .ok df =>
      ⟨true, "GDP data refreshed (" ++ toString df.rows.length ++ " quarters)", some df⟩
    | .error e => ⟨false, "Error refreshing GDP: " ++ e, none⟩
  else
    ⟨false, "FRED API key not provided or fredapi not installed", none⟩

/-- `refresh_unemployment_data`, same shape as the GDP refresh. -/
def refresh_unemployment_data (fred_api_key : Option String) (fredAvailable : Bool)
    (fetched : Except String DataFrame) (existing : Option DataFrame) : Outcome :=
  if truthy fred_api_key && fredAvailable then
    match (match fetched with
           | .error e => .error e
           | .ok df => refreshUnempCore df existing : Except String DataFrame) with
    | .ok df =>
      ⟨true, "Unemployment data refreshed (" ++ toString df.rows.length ++ " years)", some df⟩
    | .error e => ⟨false, "Error refreshing unemployment: " ++ e, none⟩
  else
    ⟨false, "FRED API key not provided or fredapi not installed", none⟩

/-- `refresh_sentiment_data`, same shape as the GDP refresh. -/
def refresh_sentiment_data (fred_api_key : Option String) (fredAvailable : Bool)
    (fetched : Except String DataFrame) (existing : Option DataFrame) : Outcome :=
  if truthy fred_api_key && fredAvailable then
    match (match fetched with
           | .error e => .error e
           | .ok df => refreshSentCore df existing : Except String DataFrame) with
    | .ok df =>
      ⟨true, "Sentiment data refreshed (" ++ toString df.rows.length ++ " periods)", some df⟩
    | .error e => ⟨false, "Error refreshing sentiment: " ++ e, none⟩
  else
    ⟨false, "FRED API key not provided or fredapi not installed", none⟩

/-- `refresh_all_api_data`: one outcome per kind, in the source's fixed order;
housing and vehicle are fixed manual-update failures. -/
def refresh_all_api_data (fred_api_key : Option String) (fredAvailable : Bool)
    (bea_api_key : Option String)
    (gdpFetched unempFetched sentFetched : Except String DataFrame)
    (gdpExisting unempExisting sentExisting : Option DataFrame) :
    List (String × Outcome) :=
  [("gdp", refresh_gdp_data fred_api_key fredAvailable bea_api_key gdpFetched gdpExisting),
   ("unemployment", refresh_unemployment_data fred_api_key fredAvailable unempFetched unempExisting),
   ("sentiment", refresh_sentiment_data fred_api_key fredAvailable sentFetched sentExisting),
   ("housing", ⟨false, "Housing data requires manual update (no free API)", none⟩),
   ("vehicle", ⟨false, "Vehicle data requires manual update (no free API)", none⟩)]

/-! ## Remote fetch normalization (`fetch_gdp_from_fred`,
`fetch_unemployment_from_fred`) -/

/-- An observation date of the remote time series. -/
structure Date where
  year : Int
  month : Nat
  day : Nat
deriving DecidableEq, Repr

/-- `format_quarter` from `fetch_gdp_from_fred`:
`f"Q{(date.month - 1) // 3 + 1} {str(date.year)[2:]}"`. -/
def format_quarter (d : Date) : String :=
  "Q" ++ toString ((d.month - 1) / 3 + 1) ++ " " ++ (toString d.year).drop 2

/-- `fetch_gdp_from_fred` after the API call: the raw series (pairs of
observation date and value) becomes a dataframe with quarter labels and an
all-null `Disputed` column, columns ordered `Quarter, GDP, Disputed`. -/
def fetch_gdp_from_fred (series : List (Date × Cell)) : DataFrame :=
  ⟨["Quarter", "GDP", "Disputed"],
   series.map (fun p => [some (format_quarter p.1), p.2, none])⟩

/-- A row of the normalized unemployment dataset, with numeric values kept
exact as rationals. -/
structure URow where
  year : String
  overall : Rat
  youngGrads : Option Rat
  recentGrads : Option Rat
deriving DecidableEq, Repr

/-- Round half to even at integer precision (the rounding used by
`Series.round`). -/
def roundHalfEven (x : Rat) : Int :=
  let n := ⌊x⌋
  if x - n < 1/2 then n
  else if x - n > 1/2 then n + 1
  else if n % 2 = 0 then n else n + 1

/-- `Series.round(1)`: round half to even at one decimal place. -/
def round1 (x : Rat) : Rat :=
  ((roundHalfEven (10 * x) : Int) : Rat) / 10

/-- The monthly observations falling in calendar year `y`. -/
def valuesOfYear (series : List (Date × Rat)) (y : Int) : List Rat :=
  (series.filter (fun p => p.1.year == y)).map (fun p => p.2)

/-- Arithmetic mean (`GroupBy.mean`). -/
def mean (vs : List Rat) : Rat :=
  vs.sum / (vs.length : Rat)

/-- `fetch_unemployment_from_fred` after the API call: group the monthly series
by calendar year (groupby sorts the year keys ascending), average each year,
round to one decimal, key by the year as text, and initialize both grad
override columns to null. -/
def fetch_unemployment_from_fred (series : List (Date × Rat)) : List URow :=
  (List.insertionSort (· ≤ ·) (series.map (fun p => p.1.year)).dedup).map
    (fun y => ⟨toString y, round1 (mean (valuesOfYear series y)), none, none⟩)

/-! ## Default catalog and plain loads -/

/-- Row-major view of a `pd.DataFrame({name: values, ...})` literal. -/
def transposeRows (colsVals : List (List Cell)) (n : Nat) : List (List Cell) :=
  (List.range n).map (fun i => colsVals.map (fun c => c.getD i none))

/-- `pd.DataFrame` built from a column dictionary (all columns equal length). -/
def dfOfCols (cols : List (String × List Cell)) : DataFrame :=
  ⟨cols.map Prod.fst,
   transposeRows (cols.map Prod.snd)
     ((cols.map (fun c => c.2.length)).foldr max 0)⟩

def get_default_gdp_data : DataFrame :=
  dfOfCols
    [("Quarter", [some "Q1 20", some "Q2 20", some "Q3 20", some "Q4 20",
                  some "Q1 21", some "Q2 21", some "Q3 21", some "Q4 21",
                  some "Q1 22", some "Q2 22", some "Q3 22", some "Q4 22",
                  some "Q1 23", some "Q2 23", some "Q3 23", some "Q4 23",
                  some "Q1 24", some "Q2 24", some "Q3 24", some "Q4 24",
                  some "Q1 25", some "Q2 25", some "Q3 25"]),
     ("GDP", [some "-5.3", some "-28.0", some "34.8", some "4.0",
              some "6.3", some "7.0", some "2.3", some "6.9",
              some "-1.6", some "-0.6", some "3.2", some "2.6",
              some "2.2", some "2.1", some "4.9", some "3.4",
              some "1.4", some "3.0", some "2.8", some "2.3",
              some "-0.5", some "3.8", some "4.3"]),
     ("Disputed", List.replicate 21 none ++ [some "1.0", some "0.8"])]

def get_default_sentiment_data : DataFrame :=
  dfOfCols
    [("Period", [some "Jan 19", some "Jul 19", some "Dec 19", some "Jan 20",
                 some "Apr 20", some "Jul 20", some "Dec 20",
                 some "Jan 21", some "Jul 21", some "Dec 21",
                 some "Jan 22", some "Jun 22", some "Dec 22",
                 some "Jan 23", some "Jul 23", some "Dec 23",
                 some "Jan 24", some "Jul 24", some "Dec 24",
                 some "Jan 25", some "Apr 25", some "Jul 25", some "Dec 25"]),
     ("Michigan", [some "91.2", some "98.4", some "99.3", some "99.8",
                   some "71.8", some "72.5", some "80.7", some "79.0",
                   some "81.2", some "70.6", some "67.2", some "50.0",
                   some "59.7", some "64.9", some "71.6", some "69.7",
                   some "79.0", some "66.4", some "74.0", some "73.2",
                   some "52.2", some "61.7", some "52.9"]),
     ("Conference Board", [some "121.7", some "135.8", some "126.5", some "130.4",
                           some "85.7", some "91.7", some "87.1", some "87.1",
                           some "125.1", some "115.2", some "111.1", some "98.7",
                           some "109.0", some "106.0", some "114.0", some "108.0",
                           some "110.9", some "101.9", some "104.7", some "105.3",
                           some "86.0", some "95.4", some "89.1"])]

def get_default_expectations_data : DataFrame :=
  dfOfCols
    [("Month", [some "Jan 24", some "Feb 24", some "Mar 24", some "Apr 24",
                some "May 24", some "Jun 24", some "Jul 24", some "Aug 24",
                some "Sep 24", some "Oct 24", some "Nov 24", some "Dec 24",
                some "Jan 25", some "Feb 25", some "Mar 25", some "Apr 25",
                some "May 25", some "Jun 25", some "Jul 25", some "Aug 25",
                some "Sep 25", some "Oct 25", some "Nov 25", some "Dec 25"]),
     ("Value", [some "83.8", some "79.8", some "77.4", some "68.8",
                some "72.8", some "79.0", some "82.0", some "82.5",
                some "82.4", some "89.1", some "86.0", some "78.1",
                some "76.7", some "72.9", some "65.2", some "54.4",
                some "72.8", some "71.5", some "73.4", some "75.6",
                some "73.7", some "70.7", some "70.7", some "70.7"])]

def get_default_unemployment_data : DataFrame :=
  dfOfCols
    [("Year", [some "2019", some "2020", some "2021", some "2022",
               some "2023", some "2024", some "2025"]),
     ("Overall", [some "3.5", some "8.1", some "5.4", some "3.6",
                  some "3.6", some "4.0", some "4.6"]),
     ("Young Grads (22-27)", [some "3.25", some "6.5", some "5.0", some "3.5",
                              some "3.8", some "4.2", some "4.59"]),
     ("Recent Grads", [some "5.0", some "9.0", some "7.5", some "5.5",
                       some "6.0", some "7.5", some "9.7"])]

def get_default_housing_data : DataFrame :=
  dfOfCols
    [("Year", [some "2019", some "2020", some "2021", some "2022",
               some "2023", some "2024", some "2025"]),
     ("Median Price ($K)", [some "313", some "329", some "386", some "449",
                            some "431", some "420", some "417"]),
     ("Price-to-Income Ratio", [some "4.1", some "4.3", some "4.6", some "5.2",
                                some "5.1", some "5.0", some "5.0"]),
     ("Cost as % of Income", [some "35", some "37", some "40", some "48",
                              some "47", some "47", some "47.7"]),
     ("First-Time Buyer Age", [some "33", some "34", some "36", some "38",
                               some "39", some "39", some "40"])]

def get_default_vehicle_data : DataFrame :=
  dfOfCols
    [("Year", [some "2019", some "2020", some "2021", some "2022",
               some "2023", some "2024", some "2025"]),
     ("Avg Transaction Price", [some "36718", some "40107", some "47000",
                                some "49929", some "48528", some "47500",
                                some "49814"]),
     ("Models Under $25K", [some "30", some "25", some "20", some "12",
                            some "10", some "10", some "8"]),
     ("Avg Monthly Payment", [some "554", some "575", some "641", some "717",
                              some "726", some "734", some "754"])]

/-- `load_gdp_data`: the persisted file when present, the default catalog
when absent; a parse error of an existing file propagates. The storage state
is returned alongside to make explicit that a plain load performs no write. -/
def load_gdp_data (fs : FS) : Except String (DataFrame × FS) :=
  match load_csv fs "gdp_data.csv" with
  | .error e => .error e
  | .ok (some df) => .ok (df, fs)
  | .ok none => .ok (get_default_gdp_data, fs)

def load_sentiment_data (fs : FS) : Except String (DataFrame × FS) :=
  match load_csv fs "sentiment_data.csv" with
  | .error e => .error e
  | .ok (some df) => .ok (df, fs)
  | .ok none => .ok (get_default_sentiment_data, fs)

def load_expectations_data (fs : FS) : Except String (DataFrame × FS) :=
  match load_csv fs "expectations_data.csv" with
  | .error e => .error e
  | .ok (some df) => .ok (df, fs)
  | .ok none => .ok (get_default_expectations_data, fs)

def load_unemployment_data (fs : FS) : Except String (DataFrame × FS) :=
  match load_csv fs "unemployment_data.csv" with
  | .error e => .error e
  | .ok (some df) => .ok (df, fs)
  | .ok none => .ok (get_default_unemployment_data, fs)

def load_housing_data (fs : FS) : Except String (DataFrame × FS) :=
  match load_csv fs "housing_data.csv" with
  | .error e => .error e
  | .ok (some df) => .ok (df, fs)
  | .ok none => .ok (get_default_housing_data, fs)

def load_vehicle_data (fs : FS) : Except String (DataFrame × FS) :=
  match load_csv fs "vehicle_data.csv" with
  | .error e => .error e
  | .ok (some df) => .ok (df, fs)
  | .ok none => .ok (get_default_vehicle_data, fs)

/-! ## Data status (`get_data_status`) -/

/-- One entry of the status report. `present` models the Python dict key
`exists` (a Lean keyword). -/
structure FileStatus where
  present : Bool
  last_updated : String
  rows : Nat
deriving DecidableEq, Repr

/-- The fixed kind-to-filename table of `get_data_status`. -/
def status_files : List (String × String) :=
  [("GDP", "gdp_data.csv"),
   ("Sentiment", "sentiment_data.csv"),
   ("Expectations", "expectations_data.csv"),
   ("Unemployment", "unemployment_data.csv"),
   ("Housing", "housing_data.csv"),
   ("Vehicle", "vehicle_data.csv")]

/-- The loop body of `get_data_status` over its file table: for each kind in
order, existence, last-modified time and the parsed file's row count
(`len(pd.read_csv(filepath))`), `(false, "Never", 0)` for a missing file.
A file that exists but fails to parse raises out of the whole loop, so no
report at all is produced: `.error`. -/
def get_data_status_aux (fs : FS) :
    List (String × String) → Except String (List (String × FileStatus))
  | [] => .ok []
  | (name, filename) :: rest =>
    match fs filename with
    | some q =>
      match readCSV q.2 with
      | some df =>
        match get_data_status_aux fs rest with
        | .ok tail => .ok ((name, ⟨true, q.1, df.rows.length⟩) :: tail)
        | .error e => .error e
      | none => .error "EmptyDataError"
    | none =>
      match get_data_status_aux fs rest with
      | .ok tail => .ok ((name, ⟨false, "Never", 0⟩) :: tail)
      | .error e => .error e

/-- `get_data_status`: the status report over the six fixed kinds, or the
propagated parse error of the first unparseable existing file. -/
def get_data_status (fs : FS) : Except String (List (String × FileStatus)) :=
  get_data_status_aux fs status_files

/-! ## Claims -/

lemma colVals_fetch_gdp_disputed (series : List (Date × Cell)) :
    colVals (fetch_gdp_from_fred series) "Disputed"
      = List.replicate series.length none := by
  have hcell : ∀ p : Date × Cell,
      ([some (format_quarter p.1), p.2, none] : List Cell).getD
        (colIdx (fetch_gdp_from_fred series) "Disputed") none = none :=
    fun p => rfl
  calc colVals (fetch_gdp_from_fred series) "Disputed"
      = series.map (fun _ => (none : Cell)) := by
        simp only [colVals, fetch_gdp_from_fred, List.map_map]
        exact List.map_congr_left (fun p _ => hcell p)
    _ = List.replicate series.length none := by
        apply List.eq_replicate_iff.mpr
        exact ⟨by simp, by intro b hb; rcases List.mem_map.mp hb with ⟨_, _, h⟩; exact h.symm⟩

/-- C4: Every GDP observation dated `d` is labeled `"Q<N> <YY>"` with
`N = ((month-1)//3)+1` and `YY` the two-digit year, the fetched `Disputed`
column is entirely null, and in particular February 2025 labels `"Q1 25"` and
November 2025 labels `"Q4 25"`. -/
theorem gdp_quarter_labels (series : List (Date × Cell)) :
    (fetch_gdp_from_fred series).rows =
      series.map (fun p =>
        [some ("Q" ++ toString ((p.1.month - 1) / 3 + 1) ++ " "
            ++ (toString p.1.year).drop 2), p.2, none]) ∧
    colVals (fetch_gdp_from_fred series) "Disputed"
      = List.replicate series.length none ∧
    format_quarter ⟨2025, 2, 15⟩ = "Q1 25" ∧
    format_quarter ⟨2025, 11, 15⟩ = "Q4 25" :=
  ⟨rfl, colVals_fetch_gdp_disputed series, by decide, by decide⟩

/-- C5: The fetched unemployment dataset has one row per calendar year
occurring in the monthly series, keyed by the four-digit year as text, whose
overall value is the year's monthly average rounded to one decimal place, with
both grad override columns null; in particular monthly values
`[3.4, 3.6, 3.8]` in 2024 average to `3.6`. -/
theorem unemployment_annual_average (series : List (Date × Rat)) :
    (∀ r ∈ fetch_unemployment_from_fred series,
      r.youngGrads = none ∧ r.recentGrads = none ∧
      ∃ y : Int, (∃ p ∈ series, p.1.year = y) ∧ r.year = toString y ∧
        r.overall = round1 (mean (valuesOfYear series y))) ∧
    fetch_unemployment_from_fred
        [(⟨2024, 1, 15⟩, 34/10), (⟨2024, 2, 15⟩, 36/10), (⟨2024, 3, 15⟩, 38/10)]
      = [⟨"2024", 36/10, none, none⟩] := by
  constructor
  · intro r hr
    unfold fetch_unemployment_from_fred at hr
    rcases List.mem_map.mp hr with ⟨y, hy, rfl⟩
    have hy' : y ∈ (series.map (fun p => p.1.year)).dedup :=
      (List.perm_insertionSort _ _).subset hy
    have hy'' : y ∈ series.map (fun p => p.1.year) := List.mem_dedup.mp hy'
    rcases List.mem_map.mp hy'' with ⟨p, hp, rfl⟩
    exact ⟨rfl, rfl, p.1.year, ⟨p, hp, rfl⟩, rfl, rfl⟩
  · have hv : valuesOfYear
        [(⟨2024, 1, 15⟩, (34:ℚ)/10), (⟨2024, 2, 15⟩, 36/10), (⟨2024, 3, 15⟩, 38/10)] 2024
        = [34/10, 36/10, 38/10] := by
      simp [valuesOfYear, List.filter]
    have hm : mean [(34:ℚ)/10, 36/10, 38/10] = 18/5 := by
      simp only [mean, List.sum_cons, List.sum_nil, List.length_cons, List.length_nil]
      norm_num
    have hr : round1 (18/5 : ℚ) = 36/10 := by
      have h36 : (10:ℚ) * (18/5) = 36 := by norm_num
      have hf : roundHalfEven 36 = 36 := by
        simp only [roundHalfEven]
        norm_num
      simp only [round1, h36, hf]
      norm_num
    unfold fetch_unemployment_from_fred
    simp only [List.map_cons, List.map_nil]
    rw [show ([(2024:Int), 2024, 2024]).dedup = [2024] from by decide]
    rw [show List.insertionSort (· ≤ ·) [(2024:Int)] = [2024] from by decide]
    simp only [List.map_cons, List.map_nil, hv, hm, hr]
    rw [show toString (2024:Int) = "2024" from by decide]

/-- C9: When a kind's file does not exist, the plain load returns the fixed
default-catalog dataset for that kind and leaves the storage state unchanged:
loading never writes the default data back. -/
theorem load_falls_back_to_defaults (fs : FS)
    (hg : fs "gdp_data.csv" = none) (hs : fs "sentiment_data.csv" = none)
    (he : fs "expectations_data.csv" = none) (hu : fs "unemployment_data.csv" = none)
    (hh : fs "housing_data.csv" = none) (hv : fs "vehicle_data.csv" = none) :
    load_gdp_data fs = .ok (get_default_gdp_data, fs) ∧
    load_sentiment_data fs = .ok (get_default_sentiment_data, fs) ∧
    load_expectations_data fs = .ok (get_default_expectations_data, fs) ∧
    load_unemployment_data fs = .ok (get_default_unemployment_data, fs) ∧
    load_housing_data fs = .ok (get_default_housing_data, fs) ∧
    load_vehicle_data fs = .ok (get_default_vehicle_data, fs) := by
  refine ⟨?_, ?_, ?_, ?_, ?_, ?_⟩ <;>
    simp [load_gdp_data, load_sentiment_data, load_expectations_data,
      load_unemployment_data, load_housing_data, load_vehicle_data,
      load_csv, hg, hs, he, hu, hh, hv]

theorem load_falls_back_to_defaults_witness :
    load_gdp_data (fun _ => none) = .ok (get_default_gdp_data, fun _ => none) ∧
    load_sentiment_data (fun _ => none) = .ok (get_default_sentiment_data, fun _ => none) ∧
    load_expectations_data (fun _ => none) = .ok (get_default_expectations_data, fun _ => none) ∧
    load_unemployment_data (fun _ => none) = .ok (get_default_unemployment_data, fun _ => none) ∧
    load_housing_data (fun _ => none) = .ok (get_default_housing_data, fun _ => none) ∧
    load_vehicle_data (fun _ => none) = .ok (get_default_vehicle_data, fun _ => none) :=
  load_falls_back_to_defaults (fun _ => none) rfl rfl rfl rfl rfl rfl

lemma get_data_status_aux_spec (fs : FS) (files : List (String × String))
    (report : List (String × FileStatus))
    (h : get_data_status_aux fs files = .ok report)
    (hnd : (files.map Prod.fst).Nodup) :
    report.map Prod.fst = files.map Prod.fst ∧
    ∀ kind file, (kind, file) ∈ files → fs file = none →
      report.lookup kind = some ⟨false, "Never", 0⟩ := by
  induction files generalizing report with
  | nil =>
    simp only [get_data_status_aux] at h
    cases h
    exact ⟨rfl, by intro kind file hmem; simp at hmem⟩
  | cons p rest ih =>
    obtain ⟨name, filename⟩ := p
    simp only [List.map_cons, List.nodup_cons] at hnd
    simp only [get_data_status_aux] at h
    cases hf : fs filename with
    | some q =>
      rw [hf] at h
      simp only at h
      cases hcsv : readCSV q.2 with
      | some df =>
        rw [hcsv] at h
        simp only at h
        cases htail : get_data_status_aux fs rest with
        | ok tail =>
          rw [htail] at h
          simp only at h
          cases h
          obtain ⟨ihmap, ihmem⟩ := ih tail htail hnd.2
          refine ⟨by simp [ihmap], ?_⟩
          intro kind file hmem habs
          rcases List.mem_cons.mp hmem with heq | hmem'
          · obtain ⟨rfl, rfl⟩ := Prod.mk.injEq .. ▸ heq
            exact absurd (hf.symm.trans habs) (by simp)
          · have hkind : kind ≠ name := by
              rintro rfl
              exact hnd.1 (List.mem_map.mpr ⟨(kind, file), hmem', rfl⟩)
            rw [List.lookup_cons, beq_eq_false_iff_ne.mpr hkind]
            exact ihmem kind file hmem' habs
        | error e =>
          rw [htail] at h
          simp at h
      | none =>
        rw [hcsv] at h
        simp at h
    | none =>
      rw [hf] at h
      simp only at h
      cases htail : get_data_status_aux fs rest with
      | ok tail =>
        rw [htail] at h
        simp only at h
        cases h
        obtain ⟨ihmap, ihmem⟩ := ih tail htail hnd.2
        refine ⟨by simp [ihmap], ?_⟩
        intro kind file hmem habs
        rcases List.mem_cons.mp hmem with heq | hmem'
        · obtain ⟨rfl, rfl⟩ := Prod.mk.injEq .. ▸ heq
          rw [List.lookup_cons]
          simp
        · have hkind : kind ≠ name := by
            rintro rfl
            exact hnd.1 (List.mem_map.mpr ⟨(kind, file), hmem', rfl⟩)
          rw [List.lookup_cons, beq_eq_false_iff_ne.mpr hkind]
          exact ihmem kind file hmem' habs
      | error e =>
        rw [htail] at h
        simp at h

/-- C8: Whenever the status query returns a report (it raises instead when an
existing file fails to parse), a kind whose file does not exist reports exactly
`(exists: false, last_updated: "Never", rows: 0)`, and the report has one entry
per kind, all six in order. -/
theorem status_missing_file (fs : FS) (kind file : String)
    (report : List (String × FileStatus))
    (hrep : get_data_status fs = .ok report)
    (hmem : (kind, file) ∈ status_files) (habs : fs file = none) :
    report.lookup kind = some ⟨false, "Never", 0⟩ ∧
    report.map Prod.fst =
      ["GDP", "Sentiment", "Expectations", "Unemployment", "Housing", "Vehicle"] := by
  obtain ⟨hmap, hlook⟩ :=
    get_data_status_aux_spec fs status_files report hrep (by decide)
  exact ⟨hlook kind file hmem habs, hmap.trans (by decide)⟩

theorem status_missing_file_witness :
    ([("GDP", ⟨false, "Never", 0⟩), ("Sentiment", ⟨false, "Never", 0⟩),
      ("Expectations", ⟨false, "Never", 0⟩), ("Unemployment", ⟨false, "Never", 0⟩),
      ("Housing", ⟨false, "Never", 0⟩), ("Vehicle", ⟨false, "Never", 0⟩)]
        : List (String × FileStatus)).lookup "GDP" = some ⟨false, "Never", 0⟩ ∧
    ([("GDP", (⟨false, "Never", 0⟩ : FileStatus)), ("Sentiment", ⟨false, "Never", 0⟩),
      ("Expectations", ⟨false, "Never", 0⟩), ("Unemployment", ⟨false, "Never", 0⟩),
      ("Housing", ⟨false, "Never", 0⟩), ("Vehicle", ⟨false, "Never", 0⟩)]).map Prod.fst =
      ["GDP", "Sentiment", "Expectations", "Unemployment", "Housing", "Vehicle"] :=
  status_missing_file (fun _ => none) "GDP" "gdp_data.csv"
    [("GDP", ⟨false, "Never", 0⟩), ("Sentiment", ⟨false, "Never", 0⟩),
     ("Expectations", ⟨false, "Never", 0⟩), ("Unemployment", ⟨false, "Never", 0⟩),
     ("Housing", ⟨false, "Never", 0⟩), ("Vehicle", ⟨false, "Never", 0⟩)]
    rfl (by decide) rfl

/-- C6: With no usable credential or with the API client unavailable, every
automated kind's outcome is the failure tuple with absent data, the result not
depending on any fetch result, and the fetch guard is false: no network call is
attempted for any kind. -/
theorem no_credential_no_network (fred_api_key bea_api_key : Option String)
    (fredAvailable : Bool) (gf uf sf : Except String DataFrame)
    (gx ux sx : Option DataFrame)
    (h : truthy fred_api_key = false ∨ fredAvailable = false) :
    fetch_attempted fred_api_key fredAvailable = false ∧
    (refresh_all_api_data fred_api_key fredAvailable bea_api_key
        gf uf sf gx ux sx).lookup "gdp"
      = some ⟨false, "FRED API key not provided or fredapi not installed", none⟩ ∧
    (refresh_all_api_data fred_api_key fredAvailable bea_api_key
        gf uf sf gx ux sx).lookup "unemployment"
      = some ⟨false, "FRED API key not provided or fredapi not installed", none⟩ ∧
    (refresh_all_api_data fred_api_key fredAvailable bea_api_key
        gf uf sf gx ux sx).lookup "sentiment"
      = some ⟨false, "FRED API key not provided or fredapi not installed", none⟩ := by
  have hg : (truthy fred_api_key && fredAvailable) = false := by
    rcases h with h | h <;> simp [h]
  refine ⟨by simp [fetch_attempted, hg], ?_, ?_, ?_⟩ <;>
    simp [refresh_all_api_data, refresh_gdp_data, refresh_unemployment_data,
      refresh_sentiment_data, hg, List.lookup]

theorem no_credential_no_network_witness :
    fetch_attempted none true = false ∧
    (refresh_all_api_data none true none (.ok ⟨[], []⟩) (.ok ⟨[], []⟩) (.ok ⟨[], []⟩)
        none none none).lookup "gdp"
      = some ⟨false, "FRED API key not provided or fredapi not installed", none⟩ ∧
    (refresh_all_api_data none true none (.ok ⟨[], []⟩) (.ok ⟨[], []⟩) (.ok ⟨[], []⟩)
        none none none).lookup "unemployment"
      = some ⟨false, "FRED API key not provided or fredapi not installed", none⟩ ∧
    (refresh_all_api_data none true none (.ok ⟨[], []⟩) (.ok ⟨[], []⟩) (.ok ⟨[], []⟩)
        none none none).lookup "sentiment"
      = some ⟨false, "FRED API key not provided or fredapi not installed", none⟩ :=
  no_credential_no_network none none true _ _ _ none none none (Or.inl rfl)

/-- C7: An exception in one kind's step is caught at that kind's boundary and
becomes `(false, "Error refreshing <kind>: <detail>", absent)`, while the other
kinds still run: with a successful GDP refresh and an unemployment fetch that
raises `e`, GDP's outcome is the successful one, unemployment's outcome is the
converted failure, and sentiment is still attempted. -/
theorem per_kind_error_isolation (fred_api_key bea_api_key : Option String)
    (gf sf : Except String DataFrame) (gx ux sx : Option DataFrame) (e : String)
    (hk : truthy fred_api_key = true)
    (hgdp : (refresh_gdp_data fred_api_key true bea_api_key gf gx).success = true) :
    (refresh_all_api_data fred_api_key true bea_api_key
        gf (.error e) sf gx ux sx).lookup "gdp"
      = some (refresh_gdp_data fred_api_key true bea_api_key gf gx) ∧
    (refresh_gdp_data fred_api_key true bea_api_key gf gx).success = true ∧
    (refresh_all_api_data fred_api_key true bea_api_key
        gf (.error e) sf gx ux sx).lookup "unemployment"
      = some ⟨false, "Error refreshing unemployment: " ++ e, none⟩ ∧
    (refresh_all_api_data fred_api_key true bea_api_key
        gf (.error e) sf gx ux sx).lookup "sentiment"
      = some (refresh_sentiment_data fred_api_key true sf sx) ∧
    fetch_attempted fred_api_key true = true := by
  refine ⟨?_, hgdp, ?_, ?_, by simp [fetch_attempted, hk]⟩ <;>
    simp [refresh_all_api_data, refresh_unemployment_data, hk, List.lookup]

theorem per_kind_error_isolation_witness :
    (refresh_all_api_data (some "key") true none
        (.ok ⟨["Quarter", "GDP", "Disputed"], []⟩) (.error "boom")
        (.ok ⟨["Period", "Michigan", "Conference Board"], []⟩)
        none none none).lookup "gdp"
      = some (refresh_gdp_data (some "key") true none
          (.ok ⟨["Quarter", "GDP", "Disputed"], []⟩) none) ∧
    (refresh_gdp_data (some "key") true none
        (.ok ⟨["Quarter", "GDP", "Disputed"], []⟩) none).success = true ∧
    (refresh_all_api_data (some "key") true none
        (.ok ⟨["Quarter", "GDP", "Disputed"], []⟩) (.error "boom")
        (.ok ⟨["Period", "Michigan", "Conference Board"], []⟩)
        none none none).lookup "unemployment"
      = some ⟨false, "Error refreshing unemployment: " ++ "boom", none⟩ ∧
    (refresh_all_api_data (some "key") true none
        (.ok ⟨["Quarter", "GDP", "Disputed"], []⟩) (.error "boom")
        (.ok ⟨["Period", "Michigan", "Conference Board"], []⟩)
        none none none).lookup "sentiment"
      = some (refresh_sentiment_data (some "key") true
          (.ok ⟨["Period", "Michigan", "Conference Board"], []⟩) none) ∧
    fetch_attempted (some "key") true = true :=
  per_kind_error_isolation (some "key") none
    (.ok ⟨["Quarter", "GDP", "Disputed"], []⟩)
    (.ok ⟨["Period", "Michigan", "Conference Board"], []⟩)
    none none none "boom" rfl (by decide)

lemma reconcile_self (df : DataFrame) (kc oc : String) (hwf : df.WF)
    (_hk : kc ∈ df.columns) (ho : oc ∈ df.columns)
    (hnd : (colVals df kc).Nodup) :
    setCol df oc
      ((colVals df kc).map (seriesMap ((colVals df kc).zip (colVals df oc))))
      = df := by
  rw [map_seriesMap_self _ _ hnd (by rw [colVals_length, colVals_length])]
  exact setCol_self df oc ho hwf

/-- C3: The override-merge reconcile step is idempotent: with the dataset itself
as the prior dataset (and its key-column values unique), each kind's merge step
returns the dataset unchanged. -/
theorem reconcile_idempotent (dfG dfU dfS : DataFrame)
    (hwfG : dfG.WF) (hqG : "Quarter" ∈ dfG.columns) (hdG : "Disputed" ∈ dfG.columns)
    (hndG : (colVals dfG "Quarter").Nodup)
    (hwfU : dfU.WF) (hyU : "Year" ∈ dfU.columns)
    (hgU : "Young Grads (22-27)" ∈ dfU.columns) (hrU : "Recent Grads" ∈ dfU.columns)
    (hndU : (colVals dfU "Year").Nodup)
    (hwfS : dfS.WF) (hpS : "Period" ∈ dfS.columns) (hcS : "Conference Board" ∈ dfS.columns)
    (hndS : (colVals dfS "Period").Nodup) :
    refreshGdpCore dfG (some dfG) = .ok dfG ∧
    refreshUnempCore dfU (some dfU) = .ok dfU ∧
    refreshSentCore dfS (some dfS) = .ok dfS := by
  refine ⟨?_, ?_, ?_⟩
  · have h1 := reconcile_self dfG "Quarter" "Disputed" hwfG hqG hdG hndG
    simp only [refreshGdpCore, getColE, hqG, hdG, if_true, h1]
  · have h1 := reconcile_self dfU "Year" "Young Grads (22-27)" hwfU hyU hgU hndU
    have h2 := reconcile_self dfU "Year" "Recent Grads" hwfU hyU hrU hndU
    simp only [refreshUnempCore, getColE, hyU, hgU, hrU, if_true, h1, h2]
  · have h1 := reconcile_self dfS "Period" "Conference Board" hwfS hpS hcS hndS
    simp only [refreshSentCore, getColE, hpS, hcS, if_true, h1]

theorem reconcile_idempotent_witness :
    refreshGdpCore ⟨["Quarter", "GDP", "Disputed"],
        [[some "Q1 25", some "-0.5", some "1.0"]]⟩
      (some ⟨["Quarter", "GDP", "Disputed"],
        [[some "Q1 25", some "-0.5", some "1.0"]]⟩)
      = .ok ⟨["Quarter", "GDP", "Disputed"],
        [[some "Q1 25", some "-0.5", some "1.0"]]⟩ ∧
    refreshUnempCore ⟨["Year", "Overall", "Young Grads (22-27)", "Recent Grads"],
        [[some "2024", some "4.0", some "4.2", some "7.5"]]⟩
      (some ⟨["Year", "Overall", "Young Grads (22-27)", "Recent Grads"],
        [[some "2024", some "4.0", some "4.2", some "7.5"]]⟩)
      = .ok ⟨["Year", "Overall", "Young Grads (22-27)", "Recent Grads"],
        [[some "2024", some "4.0", some "4.2", some "7.5"]]⟩ ∧
    refreshSentCore ⟨["Period", "Michigan", "Conference Board"],
        [[some "Jan 25", some "73.2", some "105.3"]]⟩
      (some ⟨["Period", "Michigan", "Conference Board"],
        [[some "Jan 25", some "73.2", some "105.3"]]⟩)
      = .ok ⟨["Period", "Michigan", "Conference Board"],
        [[some "Jan 25", some "73.2", some "105.3"]]⟩ :=
  reconcile_idempotent _ _ _
    (by decide) (by decide) (by decide) (by decide)
    (by decide) (by decide) (by decide) (by decide) (by decide)
    (by decide) (by decide) (by decide) (by decide)

lemma rows_length_setCol (df : DataFrame) (c : String) (vals : List Cell)
    (hc : c ∈ df.columns) (hlen : vals.length = df.rows.length) :
    (setCol df c vals).rows.length = df.rows.length := by
  simp [setCol, hc, hlen]

/-- C1: A refresh of an automated kind with a prior persisted dataset whose
keys are unique keeps the fresh key column, gives every row whose key occurred
in the prior dataset the prior override value for that key, and gives every row
with a new key a null override — for each override column of each kind
(`Disputed`; `Young Grads (22-27)` and `Recent Grads`; `Conference Board`). -/
theorem refresh_preserves_overrides
    (fred_api_key bea_api_key : Option String)
    (dfG dfU dfS exG exU exS : DataFrame)
    (hk : truthy fred_api_key = true)
    (hwfG : dfG.WF) (hfG : "Quarter" ∈ dfG.columns) (hfG2 : "Disputed" ∈ dfG.columns)
    (heG : "Quarter" ∈ exG.columns) (heG2 : "Disputed" ∈ exG.columns)
    (hndG : (colVals exG "Quarter").Nodup)
    (hwfU : dfU.WF) (hfU : "Year" ∈ dfU.columns)
    (hfU2 : "Young Grads (22-27)" ∈ dfU.columns) (hfU3 : "Recent Grads" ∈ dfU.columns)
    (heU : "Year" ∈ exU.columns) (heU2 : "Young Grads (22-27)" ∈ exU.columns)
    (heU3 : "Recent Grads" ∈ exU.columns) (hndU : (colVals exU "Year").Nodup)
    (hwfS : dfS.WF) (hfS : "Period" ∈ dfS.columns) (hfS2 : "Conference Board" ∈ dfS.columns)
    (heS : "Period" ∈ exS.columns) (heS2 : "Conference Board" ∈ exS.columns)
    (hndS : (colVals exS "Period").Nodup) :
    (∃ res, refresh_gdp_data fred_api_key true bea_api_key (.ok dfG) (some exG)
        = ⟨true, "GDP data refreshed (" ++ toString res.rows.length ++ " quarters)",
           some res⟩ ∧
      colVals res "Quarter" = colVals dfG "Quarter" ∧
      mergeSpec (colVals exG "Quarter") (colVals exG "Disputed")
        (colVals res "Quarter") (colVals res "Disputed")) ∧
    (∃ res, refresh_unemployment_data fred_api_key true (.ok dfU) (some exU)
        = ⟨true, "Unemployment data refreshed (" ++ toString res.rows.length ++ " years)",
           some res⟩ ∧
      colVals res "Year" = colVals dfU "Year" ∧
      mergeSpec (colVals exU "Year") (colVals exU "Young Grads (22-27)")
        (colVals res "Year") (colVals res "Young Grads (22-27)") ∧
      mergeSpec (colVals exU "Year") (colVals exU "Recent Grads")
        (colVals res "Year") (colVals res "Recent Grads")) ∧
    (∃ res, refresh_sentiment_data fred_api_key true (.ok dfS) (some exS)
        = ⟨true, "Sentiment data refreshed (" ++ toString res.rows.length ++ " periods)",
           some res⟩ ∧
      colVals res "Period" = colVals dfS "Period" ∧
      mergeSpec (colVals exS "Period") (colVals exS "Conference Board")
        (colVals res "Period") (colVals res "Conference Board")) := by
  refine ⟨?_, ?_, ?_⟩
  · -- GDP
    have hlenG : ((colVals dfG "Quarter").map
        (seriesMap ((colVals exG "Quarter").zip (colVals exG "Disputed")))).length
        = dfG.rows.length := by
      rw [List.length_map, colVals_length]
    refine ⟨setCol dfG "Disputed" ((colVals dfG "Quarter").map
      (seriesMap ((colVals exG "Quarter").zip (colVals exG "Disputed")))), ?_, ?_, ?_⟩
    · simp only [refresh_gdp_data, hk, Bool.true_and, if_true,
        refreshGdpCore, getColE, heG, heG2, hfG]
    · exact colVals_setCol_other _ _ _ _ hfG2 (by decide) hlenG
    · rw [colVals_setCol_other _ _ _ _ hfG2 (by decide) hlenG,
          colVals_setCol_self _ _ _ hfG2 hwfG hlenG]
      exact mergeSpec_map _ _ _ hndG (by rw [colVals_length, colVals_length])
  · -- Unemployment
    have hlen1 : ((colVals dfU "Year").map
        (seriesMap ((colVals exU "Year").zip (colVals exU "Young Grads (22-27)")))).length
        = dfU.rows.length := by
      rw [List.length_map, colVals_length]
    have hy1 : colVals (setCol dfU "Young Grads (22-27)" ((colVals dfU "Year").map
        (seriesMap ((colVals exU "Year").zip (colVals exU "Young Grads (22-27)")))))
        "Year" = colVals dfU "Year" :=
      colVals_setCol_other _ _ _ _ hfU2 (by decide) hlen1
    have hwf1 : (setCol dfU "Young Grads (22-27)" ((colVals dfU "Year").map
        (seriesMap ((colVals exU "Year").zip (colVals exU "Young Grads (22-27)"))))).WF :=
      WF_setCol _ _ _ hfU2 hwfU
    have hcols1 := setCol_columns_of_mem dfU "Young Grads (22-27)"
      ((colVals dfU "Year").map
        (seriesMap ((colVals exU "Year").zip (colVals exU "Young Grads (22-27)")))) hfU2
    have hrg1 : "Recent Grads" ∈ (setCol dfU "Young Grads (22-27)" ((colVals dfU "Year").map
        (seriesMap ((colVals exU "Year").zip (colVals exU "Young Grads (22-27)"))))).columns := by
      rw [hcols1]
      exact hfU3
    have hrows1 : (setCol dfU "Young Grads (22-27)" ((colVals dfU "Year").map
        (seriesMap ((colVals exU "Year").zip (colVals exU "Young Grads (22-27)"))))).rows.length
        = dfU.rows.length :=
      rows_length_setCol _ _ _ hfU2 hlen1
    have hlen2 : ((colVals dfU "Year").map
        (seriesMap ((colVals exU "Year").zip (colVals exU "Recent Grads")))).length
        = (setCol dfU "Young Grads (22-27)" ((colVals dfU "Year").map
            (seriesMap ((colVals exU "Year").zip (colVals exU "Young Grads (22-27)"))))).rows.length := by
      rw [List.length_map, colVals_length, hrows1]
    refine ⟨setCol
        (setCol dfU "Young Grads (22-27)" ((colVals dfU "Year").map
          (seriesMap ((colVals exU "Year").zip (colVals exU "Young Grads (22-27)")))))
        "Recent Grads" ((colVals dfU "Year").map
          (seriesMap ((colVals exU "Year").zip (colVals exU "Recent Grads")))), ?_, ?_, ?_, ?_⟩
    · simp only [refresh_unemployment_data, hk, Bool.true_and, if_true,
        refreshUnempCore, getColE, heU, heU2, heU3, hfU, hcols1, hy1]
    · rw [colVals_setCol_other _ _ _ _ hrg1 (by decide) hlen2, hy1]
    · rw [colVals_setCol_other _ _ _ _ hrg1 (by decide) hlen2, hy1,
          colVals_setCol_other _ _ _ _ hrg1 (by decide) hlen2,
          colVals_setCol_self _ _ _ hfU2 hwfU hlen1]
      exact mergeSpec_map _ _ _ hndU (by rw [colVals_length, colVals_length])
    · rw [colVals_setCol_other _ _ _ _ hrg1 (by decide) hlen2, hy1,
          colVals_setCol_self _ _ _ hrg1 hwf1 hlen2]
      exact mergeSpec_map _ _ _ hndU (by rw [colVals_length, colVals_length])
  · -- Sentiment
    have hlenS : ((colVals dfS "Period").map
        (seriesMap ((colVals exS "Period").zip (colVals exS "Conference Board")))).length
        = dfS.rows.length := by
      rw [List.length_map, colVals_length]
    refine ⟨setCol dfS "Conference Board" ((colVals dfS "Period").map
      (seriesMap ((colVals exS "Period").zip (colVals exS "Conference Board")))), ?_, ?_, ?_⟩
    · simp only [refresh_sentiment_data, hk, Bool.true_and, if_true,
        refreshSentCore, getColE, heS, heS2, hfS]
    · exact colVals_setCol_other _ _ _ _ hfS2 (by decide) hlenS
    · rw [colVals_setCol_other _ _ _ _ hfS2 (by decide) hlenS,
          colVals_setCol_self _ _ _ hfS2 hwfS hlenS]
      exact mergeSpec_map _ _ _ hndS (by rw [colVals_length, colVals_length])

theorem refresh_preserves_overrides_witness :
    (∃ res, refresh_gdp_data (some "key") true none
        (.ok ⟨["Quarter", "GDP", "Disputed"], [[some "Q1 25", some "2.0", none]]⟩)
        (some ⟨["Quarter", "GDP", "Disputed"], [[some "Q1 25", some "2.1", some "7.5"]]⟩)
        = ⟨true, "GDP data refreshed (" ++ toString res.rows.length ++ " quarters)",
           some res⟩ ∧
      colVals res "Quarter"
        = colVals ⟨["Quarter", "GDP", "Disputed"], [[some "Q1 25", some "2.0", none]]⟩
            "Quarter" ∧
      mergeSpec
        (colVals ⟨["Quarter", "GDP", "Disputed"],
          [[some "Q1 25", some "2.1", some "7.5"]]⟩ "Quarter")
        (colVals ⟨["Quarter", "GDP", "Disputed"],
          [[some "Q1 25", some "2.1", some "7.5"]]⟩ "Disputed")
        (colVals res "Quarter") (colVals res "Disputed")) ∧
    (∃ res, refresh_unemployment_data (some "key") true
        (.ok ⟨["Year", "Overall", "Young Grads (22-27)", "Recent Grads"],
          [[some "2024", some "4.0", none, none]]⟩)
        (some ⟨["Year", "Overall", "Young Grads (22-27)", "Recent Grads"],
          [[some "2024", some "4.1", some "4.2", some "7.5"]]⟩)
        = ⟨true, "Unemployment data refreshed (" ++ toString res.rows.length ++ " years)",
           some res⟩ ∧
      colVals res "Year"
        = colVals ⟨["Year", "Overall", "Young Grads (22-27)", "Recent Grads"],
            [[some "2024", some "4.0", none, none]]⟩ "Year" ∧
      mergeSpec
        (colVals ⟨["Year", "Overall", "Young Grads (22-27)", "Recent Grads"],
          [[some "2024", some "4.1", some "4.2", some "7.5"]]⟩ "Year")
        (colVals ⟨["Year", "Overall", "Young Grads (22-27)", "Recent Grads"],
          [[some "2024", some "4.1", some "4.2", some "7.5"]]⟩ "Young Grads (22-27)")
        (colVals res "Year") (colVals res "Young Grads (22-27)") ∧
      mergeSpec
        (colVals ⟨["Year", "Overall", "Young Grads (22-27)", "Recent Grads"],
          [[some "2024", some "4.1", some "4.2", some "7.5"]]⟩ "Year")
        (colVals ⟨["Year", "Overall", "Young Grads (22-27)", "Recent Grads"],
          [[some "2024", some "4.1", some "4.2", some "7.5"]]⟩ "Recent Grads")
        (colVals res "Year") (colVals res "Recent Grads")) ∧
    (∃ res, refresh_sentiment_data (some "key") true
        (.ok ⟨["Period", "Michigan", "Conference Board"],
          [[some "Jan 25", some "73.2", none]]⟩)
        (some ⟨["Period", "Michigan", "Conference Board"],
          [[some "Jan 25", some "73.0", some "105.3"]]⟩)
        = ⟨true, "Sentiment data refreshed (" ++ toString res.rows.length ++ " periods)",
           some res⟩ ∧
      colVals res "Period"
        = colVals ⟨["Period", "Michigan", "Conference Board"],
            [[some "Jan 25", some "73.2", none]]⟩ "Period" ∧
      mergeSpec
        (colVals ⟨["Period", "Michigan", "Conference Board"],
          [[some "Jan 25", some "73.0", some "105.3"]]⟩ "Period")
        (colVals ⟨["Period", "Michigan", "Conference Board"],
          [[some "Jan 25", some "73.0", some "105.3"]]⟩ "Conference Board")
        (colVals res "Period") (colVals res "Conference Board")) :=
  refresh_preserves_overrides (some "key") none
    ⟨["Quarter", "GDP", "Disputed"], [[some "Q1 25", some "2.0", none]]⟩
    ⟨["Year", "Overall", "Young Grads (22-27)", "Recent Grads"],
      [[some "2024", some "4.0", none, none]]⟩
    ⟨["Period", "Michigan", "Conference Board"], [[some "Jan 25", some "73.2", none]]⟩
    ⟨["Quarter", "GDP", "Disputed"], [[some "Q1 25", some "2.1", some "7.5"]]⟩
    ⟨["Year", "Overall", "Young Grads (22-27)", "Recent Grads"],
      [[some "2024", some "4.1", some "4.2", some "7.5"]]⟩
    ⟨["Period", "Michigan", "Conference Board"], [[some "Jan 25", some "73.0", some "105.3"]]⟩
    rfl
    (by decide) (by decide) (by decide) (by decide) (by decide) (by decide)
    (by decide) (by decide) (by decide) (by decide) (by decide) (by decide)
    (by decide) (by decide) (by decide) (by decide) (by decide) (by decide)
    (by decide) (by decide)

/-- C10: The refreshes treat a prior file lacking an override column
asymmetrically. The GDP refresh checks for `Disputed` and succeeds with the
fetched all-null `Disputed` column when it is missing, while the unemployment
and sentiment refreshes access their override columns unconditionally, so a
prior file missing `Young Grads (22-27)`, `Recent Grads`, or
`Conference Board` turns that kind's refresh into the failure outcome
`(false, "Error refreshing <kind>: ...", absent)`. -/
theorem missing_override_column_asymmetry
    (fred_api_key bea_api_key : Option String) (series : List (Date × Cell))
    (dfU dfS exG exU exS : DataFrame) (hk : truthy fred_api_key = true)
    (hG : "Disputed" ∉ exG.columns)
    (hU : "Young Grads (22-27)" ∉ exU.columns ∨ "Recent Grads" ∉ exU.columns)
    (hS : "Conference Board" ∉ exS.columns) :
    refresh_gdp_data fred_api_key true bea_api_key
        (.ok (fetch_gdp_from_fred series)) (some exG)
      = ⟨true, "GDP data refreshed (" ++ toString series.length ++ " quarters)",
         some (fetch_gdp_from_fred series)⟩ ∧
    colVals (fetch_gdp_from_fred series) "Disputed"
      = List.replicate series.length none ∧
    (∃ d, refresh_unemployment_data fred_api_key true (.ok dfU) (some exU)
      = ⟨false, "Error refreshing unemployment: " ++ d, none⟩) ∧
    (∃ d, refresh_sentiment_data fred_api_key true (.ok dfS) (some exS)
      = ⟨false, "Error refreshing sentiment: " ++ d, none⟩) := by
  refine ⟨?_, colVals_fetch_gdp_disputed series, ?_, ?_⟩
  · simp only [refresh_gdp_data, hk, Bool.true_and, if_true, refreshGdpCore, hG,
      if_false, fetch_gdp_from_fred, List.length_map]
  · by_cases hY : "Year" ∈ exU.columns
    · rcases hU with hU | hU
      · exact ⟨"'" ++ "Young Grads (22-27)" ++ "'", by
          simp only [refresh_unemployment_data, hk, Bool.true_and, if_true,
            refreshUnempCore, getColE, hY, hU, if_false]⟩
      · by_cases hYG : "Young Grads (22-27)" ∈ exU.columns
        · exact ⟨"'" ++ "Recent Grads" ++ "'", by
            simp only [refresh_unemployment_data, hk, Bool.true_and, if_true,
              refreshUnempCore, getColE, hY, hYG, hU, if_false]⟩
        · exact ⟨"'" ++ "Young Grads (22-27)" ++ "'", by
            simp only [refresh_unemployment_data, hk, Bool.true_and, if_true,
              refreshUnempCore, getColE, hY, hYG, if_false]⟩
    · exact ⟨"'" ++ "Year" ++ "'", by
        simp only [refresh_unemployment_data, hk, Bool.true_and, if_true,
          refreshUnempCore, getColE, hY, if_false]⟩
  · by_cases hP : "Period" ∈ exS.columns
    · exact ⟨"'" ++ "Conference Board" ++ "'", by
        simp only [refresh_sentiment_data, hk, Bool.true_and, if_true,
          refreshSentCore, getColE, hP, hS, if_false]⟩
    · exact ⟨"'" ++ "Period" ++ "'", by
        simp only [refresh_sentiment_data, hk, Bool.true_and, if_true,
          refreshSentCore, getColE, hP, if_false]⟩

theorem missing_override_column_asymmetry_witness :
    refresh_gdp_data (some "key") true none
        (.ok (fetch_gdp_from_fred [(⟨2025, 2, 15⟩, some "2.0")]))
        (some ⟨["Quarter", "GDP"], [[some "Q1 25", some "2.1"]]⟩)
      = ⟨true, "GDP data refreshed (" ++ toString
            [((⟨2025, 2, 15⟩ : Date), (some "2.0" : Cell))].length ++ " quarters)",
         some (fetch_gdp_from_fred [(⟨2025, 2, 15⟩, some "2.0")])⟩ ∧
    colVals (fetch_gdp_from_fred [(⟨2025, 2, 15⟩, some "2.0")]) "Disputed"
      = List.replicate [((⟨2025, 2, 15⟩ : Date), (some "2.0" : Cell))].length none ∧
    (∃ d, refresh_unemployment_data (some "key") true
        (.ok ⟨["Year", "Overall", "Young Grads (22-27)", "Recent Grads"],
          [[some "2024", some "4.0", none, none]]⟩)
        (some ⟨["Year", "Overall"], [[some "2024", some "4.1"]]⟩)
      = ⟨false, "Error refreshing unemployment: " ++ d, none⟩) ∧
    (∃ d, refresh_sentiment_data (some "key") true
        (.ok ⟨["Period", "Michigan", "Conference Board"],
          [[some "Jan 25", some "73.2", none]]⟩)
        (some ⟨["Period", "Michigan"], [[some "Jan 25", some "73.0"]]⟩)
      = ⟨false, "Error refreshing sentiment: " ++ d, none⟩) :=
  missing_override_column_asymmetry (some "key") none
    [(⟨2025, 2, 15⟩, some "2.0")]
    ⟨["Year", "Overall", "Young Grads (22-27)", "Recent Grads"],
      [[some "2024", some "4.0", none, none]]⟩
    ⟨["Period", "Michigan", "Conference Board"], [[some "Jan 25", some "73.2", none]]⟩
    ⟨["Quarter", "GDP"], [[some "Q1 25", some "2.1"]]⟩
    ⟨["Year", "Overall"], [[some "2024", some "4.1"]]⟩
    ⟨["Period", "Michigan"], [[some "Jan 25", some "73.0"]]⟩
    rfl (by decide) (Or.inl (by decide)) (by decide)
